import Mathlib

/-!
# Verification of the object-counter detection workflow

Shallow embedding of the detection-session persistence and counting
workflow of the `object-counter` repository, and proofs of its spec
claims.  Confidences and thresholds are modelled as rationals (`ℚ`),
UUIDs and timestamps as naturals, Python dicts as insertion-ordered
association lists, and the SQLAlchemy session as explicit database
states with injected failure points.
-/

namespace ObjectCounter

/-- A detector-level prediction (`src/modules/detector/base.py`,
`Prediction`): class name, confidence score, bounding box
`(xmin, ymin, xmax, ymax)`. -/
structure Prediction where
  class_name : String
  score : ℚ
  xmin : ℚ
  ymin : ℚ
  xmax : ℚ
  ymax : ℚ
deriving DecidableEq, Repr

/-- Look up a key in an insertion-ordered association list
(Python `dict.get(k, 0)`), defaulting to `0`. -/
def lookupD (m : List (String × Nat)) (k : String) : Nat :=
  match m with
  | [] => 0
  | (k0, v0) :: rest => if k0 = k then v0 else lookupD rest k

/-- `m[k] = m.get(k, 0) + v` on a Python dict: update the existing entry
in place, or append a new entry at the end (insertion order). -/
def bump (m : List (String × Nat)) (k : String) (v : Nat) : List (String × Nat) :=
  match m with
  | [] => [(k, v)]
  | (k0, v0) :: rest =>
      if k0 = k then (k0, v0 + v) :: rest else (k0, v0) :: bump rest k v

/-- Sum of the values of a counts dict (`sum(counts.values())`). -/
def sumValues (m : List (String × Nat)) : Nat :=
  (m.map Prod.snd).sum

/-- `BaseObjectDetector.filter_predictions`
(`src/modules/detector/base.py` lines 81-91): keep the predictions whose
score is at least the detector's configured confidence threshold. -/
def filter_predictions (confidence_threshold : ℚ) (predictions : List Prediction) :
    List Prediction :=
  predictions.filter (fun p => confidence_threshold ≤ p.score)

/-- Default detector confidence threshold
(`DetectionConfig.confidence_threshold: float = 0.5`). -/
def defaultConfidenceThreshold : ℚ := mkRat 1 2

/-- `TFSObjectDetector.predict` (`src/modules/detector/tf_serving.py`
lines 41-77), modelled after response parsing: the raw predictions
decoded from the model server are filtered through
`filter_predictions` at the detector's own threshold before being
returned to the caller. -/
def predict (confidence_threshold : ℚ) (raw : List Prediction) : List Prediction :=
  filter_predictions confidence_threshold raw

/-- One step of the endpoint's results/counts accumulation loop
(`src/api/v1/endpoints/detect.py` lines 62-78). -/
def filterStep (t : ℚ) (acc : List Prediction × List (String × Nat))
    (p : Prediction) : List Prediction × List (String × Nat) :=
  if t ≤ p.score then (acc.1 ++ [p], bump acc.2 p.class_name 1) else acc

/-- The endpoint's prediction filter (`detect.py` lines 59-80): one pass
over the predictions, keeping those with `score >= threshold` and
counting kept predictions per class. -/
def filter_and_count (predictions : List Prediction) (t : ℚ) :
    List Prediction × List (String × Nat) :=
  predictions.foldl (filterStep t) ([], [])

/-- Per-class counts of a list of predictions, in first-seen order. -/
def countsOf (l : List Prediction) : List (String × Nat) :=
  l.foldl (fun m p => bump m p.class_name 1) []

/-- The endpoint's `db_predictions` list (`detect.py` lines 83-95): the
predictions with `score >= threshold`, in input order (a second filter
pass over the same prediction list). -/
def db_predictions (predictions : List Prediction) (t : ℚ) : List Prediction :=
  predictions.filter (fun p => t ≤ p.score)

/-! ## Database rows (`src/modules/detection/models.py`)

UUIDs are modelled as `Nat`, timestamps as `Nat`, and `expired_at` as an
`Option Nat` (`none` = live).  `created_at` is kept only on sessions
(the workflow never reads it elsewhere). -/

/-- A `detection_sessions` row. -/
structure SessionRow where
  id : Nat
  threshold : ℚ
  image_hash : String
  image_width : Nat
  image_height : Nat
  model_id : String
  total_objects_detected : Nat
  processing_time_ms : Nat
  created_at : Nat
  updated_at : Nat
  expired_at : Option Nat
deriving DecidableEq, Repr

/-- A `detections` row. -/
structure DetectionRow where
  session_id : Nat
  class_name : String
  confidence : ℚ
  bbox_x1 : ℚ
  bbox_y1 : ℚ
  bbox_x2 : ℚ
  bbox_y2 : ℚ
  updated_at : Nat
  expired_at : Option Nat
deriving DecidableEq, Repr

/-- A `detection_counts` row (unique on `(session_id, class_name)` in
the schema). -/
structure CountRow where
  session_id : Nat
  class_name : String
  count : Nat
  updated_at : Nat
  expired_at : Option Nat
deriving DecidableEq, Repr

/-- A `detection_images` row. -/
structure ImageRow where
  session_id : Nat
  storage_type : String
  image_path : String
  original_filename : String
  mime_type : String
  file_size_bytes : Nat
  storage_metadata : List (String × String)
  updated_at : Nat
  expired_at : Option Nat
deriving DecidableEq, Repr

/-- The committed database state: the four tables of the workflow. -/
structure DB where
  sessions : List SessionRow
  detections : List DetectionRow
  counts : List CountRow
  images : List ImageRow
deriving DecidableEq, Repr

/-- `self.db.query(DetectionSession).filter_by(id=session_id).one()`,
as used by both count repositories: succeeds exactly when the table
holds exactly one row with this id (no `expired_at` filter). -/
def oneSession (db : DB) (sid : Nat) : Option SessionRow :=
  match db.sessions.filter (fun s => s.id = sid) with
  | [s] => some s
  | _ => none

/-- `DatabaseMixin.get_by_id` (`src/common/database.py` lines 49-60):
the single row with this id that is live (`expired_at IS NULL`);
`none` models the `NotFound` (HTTP 404) failure. -/
def get_by_id (db : DB) (sid : Nat) : Option SessionRow :=
  match db.sessions.filter (fun s => s.id = sid ∧ s.expired_at = none) with
  | [s] => some s
  | _ => none

/-- `DetectionService.get_session_threshold` (`services.py` lines
182-185): live lookup of the session's stored threshold. -/
def get_session_threshold (db : DB) (sid : Nat) : Option ℚ :=
  (get_by_id db sid).map (fun s => s.threshold)

/-- The summary projection of one detection row
(`services.py` lines 194-201). -/
structure DetectionOut where
  class_name : String
  confidence : ℚ
  bbox : List ℚ
deriving DecidableEq, Repr

/-- `DetectionService.get_detections` (`services.py` lines 191-201):
`query(Detection).filter_by(session_id=session_id)` — filtered only on
`session_id`, with no `expired_at` filter. -/
def get_detections (db : DB) (sid : Nat) : List DetectionOut :=
  (db.detections.filter (fun d => d.session_id = sid)).map
    (fun d => ⟨d.class_name, d.confidence, [d.bbox_x1, d.bbox_y1, d.bbox_x2, d.bbox_y2]⟩)

/-- `get_counts` (`mysql_object.py` lines 69-87, identical in
`relational_object.py`): count rows of the session as a class → count
dict, filtered only on `session_id`. -/
def get_counts (db : DB) (sid : Nat) : List (String × Nat) :=
  (db.counts.filter (fun c => c.session_id = sid)).map
    (fun c => (c.class_name, c.count))

/-- `get_total_count` (`mysql_object.py` lines 89-105): reads the
session's cached `total_objects_detected` field. -/
def get_total_count (db : DB) (sid : Nat) : Option Nat :=
  (oneSession db sid).map (fun s => s.total_objects_detected)

/-- The in-place session mutation of `MySQLObjectCountRepository.save_counts`
(`mysql_object.py` lines 34-36): set `total_objects_detected` and
`updated_at` on the row with this id. -/
def setTotal (sid total now : Nat) (s : SessionRow) : SessionRow :=
  if s.id = sid then
    { s with total_objects_detected := total, updated_at := now }
  else s

/-- The in-place session mutation of
`RelationalObjectCountRepository.save_counts` (`relational_object.py`
lines 50-51): set only `total_objects_detected`. -/
def setTotalOnly (sid total : Nat) (s : SessionRow) : SessionRow :=
  if s.id = sid then { s with total_objects_detected := total } else s

/-- The final session mutation of `detect_objects` (`services.py` lines
159-162), applied to the live row fetched by `get_by_id`: set the total,
the processing time and `updated_at`. -/
def finalizeSession (sid total pt now : Nat) (s : SessionRow) : SessionRow :=
  if s.id = sid ∧ s.expired_at = none then
    { s with total_objects_detected := total, processing_time_ms := pt,
             updated_at := now }
  else s

/-- Expiry mutation of `DatabaseMixin.delete`: set `expired_at = now`
on the row with this id. -/
def expireSession (sid now : Nat) (s : SessionRow) : SessionRow :=
  if s.id = sid then { s with expired_at := some now } else s

/-- `DatabaseMixin.delete` applied to a session (`database.py` lines
77-82): sets `expired_at = now()` on that row and commits. -/
def soft_delete_session (db : DB) (sid : Nat) (now : Nat) : DB :=
  { db with sessions := db.sessions.map (expireSession sid now) }

/-! ## Count repositories (`src/modules/adps/`) -/

/-- The read-then-write upsert of `MySQLObjectCountRepository.save_counts`
(`mysql_object.py` lines 39-59): look the `(session_id, class_name)` row
up with `.first()` (no `expired_at` filter); if present, increment its
count and refresh `updated_at`; otherwise append a new row. -/
def upsertCountRW (counts : List CountRow) (sid : Nat) (c : String) (v : Nat)
    (now : Nat) : List CountRow :=
  match counts with
  | [] => [⟨sid, c, v, now, none⟩]
  | r :: rest =>
      if r.session_id = sid ∧ r.class_name = c then
        { r with count := r.count + v, updated_at := now } :: rest
      else
        r :: upsertCountRW rest sid c v now

/-- The atomic upsert of `RelationalObjectCountRepository.save_counts`
(`relational_object.py` lines 32-46): `INSERT .. ON CONFLICT
(session_id, class_name) DO UPDATE SET count = count + v`; the conflict
clause updates only the count column. -/
def upsertCountAtomic (counts : List CountRow) (sid : Nat) (c : String) (v : Nat)
    (now : Nat) : List CountRow :=
  match counts with
  | [] => [⟨sid, c, v, now, none⟩]
  | r :: rest =>
      if r.session_id = sid ∧ r.class_name = c then
        { r with count := r.count + v } :: rest
      else
        r :: upsertCountAtomic rest sid c v now

/-- `MySQLObjectCountRepository.save_counts` (`mysql_object.py` lines
23-67): set the session's `total_objects_detected` to the sum of the
supplied map (and its `updated_at`), upsert each class count
read-then-write style, commit.  `none` models the rolled-back
`SQLAlchemyError` path (e.g. `.one()` finding no session row): the
caller's database is unchanged and an HTTP 500 is raised. -/
def save_counts_mysql (db : DB) (sid : Nat) (m : List (String × Nat))
    (now : Nat) : Option DB :=
  match oneSession db sid with
  | none => none
  | some _ =>
      let total := sumValues m
      let counts1 := m.foldl (fun cs kv => upsertCountRW cs sid kv.1 kv.2 now) db.counts
      some { db with sessions := db.sessions.map (setTotal sid total now)
                     counts := counts1 }

/-- `RelationalObjectCountRepository.save_counts` (`relational_object.py`
lines 23-58): atomic upserts for each class, then set the session's
`total_objects_detected` to the sum of the supplied map, commit.  In the
source the session `.one()` lookup runs after the upserts, but on its
failure the whole transaction rolls back, so the failure case leaves the
database unchanged either way; `updated_at` of the session is not
touched by this variant. -/
def save_counts_relational (db : DB) (sid : Nat) (m : List (String × Nat))
    (now : Nat) : Option DB :=
  match oneSession db sid with
  | none => none
  | some _ =>
      let total := sumValues m
      let counts1 := m.foldl (fun cs kv => upsertCountAtomic cs sid kv.1 kv.2 now) db.counts
      some { db with sessions := db.sessions.map (setTotalOnly sid total)
                     counts := counts1 }

/-! ## Detection workflow (`src/modules/detection/services.py`) -/

/-- A prediction dict as passed to `DetectionService.detect_objects`
(`detect.py` lines 86-95). -/
structure PredDict where
  class_name : String
  confidence : ℚ
  bbox_x1 : ℚ
  bbox_y1 : ℚ
  bbox_x2 : ℚ
  bbox_y2 : ℚ
deriving DecidableEq, Repr

/-- The summary dict returned by `detect_objects`
(`services.py` lines 166-174). -/
structure Summary where
  session_id : Nat
  object_counts : List (String × Nat)
  detections : List DetectionOut
  total_objects_detected : Nat
  processing_time_ms : Nat
  threshold_applied : ℚ
  image_dimensions : List Nat
deriving DecidableEq, Repr

/-- Injected persistence-failure point for a `detect_objects` call:
no failure, a `SQLAlchemyError` inside `save_counts` (before its
commit), or a `SQLAlchemyError` at the final `self.db.commit()`. -/
inductive FailPoint
  | noFail
  | atSaveCounts
  | atFinalCommit
deriving DecidableEq, Repr

/-- The prediction loop of `detect_objects` (`services.py` lines
130-152): for each prediction, re-fetch the session's threshold via
`get_session_threshold` (a live `get_by_id` lookup, once per
prediction); when `confidence >= threshold`, bump the per-class count,
increment the running total and stage a `Detection` row (an uncommitted
`self.db.add`).  `none` models the `NotFound` (HTTP 404) raised by a
threshold lookup. -/
def detectLoop (db : DB) (sid : Nat) (now : Nat) :
    List PredDict → List DetectionRow × List (String × Nat) × Nat →
    Option (List DetectionRow × List (String × Nat) × Nat)
  | [], acc => some acc
  | p :: rest, (dets, cnts, total) =>
      match get_session_threshold db sid with
      | none => none
      | some t =>
          if t ≤ p.confidence then
            let row : DetectionRow :=
              ⟨sid, p.class_name, p.confidence,
               p.bbox_x1, p.bbox_y1, p.bbox_x2, p.bbox_y2, now, none⟩
            detectLoop db sid now rest
              (dets ++ [row], bump cnts p.class_name 1, total + 1)
          else
            detectLoop db sid now rest (dets, cnts, total)

/-- `DetectionService.detect_objects` (`services.py` lines 113-180),
the `record_detections` operation.  The staged detection rows, the
count upserts and the session-total update are all committed by
`save_counts` (`mysql_object.py` line 61, running on the same SQLAlchemy
session with `autoflush=False`); the final `self.db.commit()` then
commits the processing-time update.  The returned pair is the committed
database after the call and `some` summary on success (`none` models a
raised `HTTPException`):

* a `NotFound` from a threshold lookup leaves the database unchanged
  (nothing was committed);
* `FailPoint.atSaveCounts` (or a missing session row in `save_counts`)
  rolls back inside `save_counts`, discarding the staged detections;
* `FailPoint.atFinalCommit` rolls back only the in-memory
  processing-time mutation: the state committed by `save_counts`
  survives. -/
def detect_objects (db : DB) (sid : Nat) (preds : List PredDict)
    (now pt : Nat) (fail : FailPoint) : DB × Option Summary :=
  match detectLoop db sid now preds ([], [], 0) with
  | none => (db, none)
  | some (dets, object_counts, total_objects) =>
      if fail = FailPoint.atSaveCounts then (db, none)
      else
        let staged := { db with detections := db.detections ++ dets }
        match save_counts_mysql staged sid object_counts now with
        | none => (db, none)
        | some db1 =>
            match get_by_id db1 sid with
            | none => (db1, none)
            | some _ =>
                if fail = FailPoint.atFinalCommit then (db1, none)
                else
                  let upd := finalizeSession sid total_objects pt now
                  let db2 : DB := { db1 with sessions := db1.sessions.map upd }
                  match get_by_id db2 sid with
                  | none => (db2, none)
                  | some s2 =>
                      (db2, some
                        { session_id := sid
                          object_counts := object_counts
                          detections := get_detections db2 sid
                          total_objects_detected := total_objects
                          processing_time_ms := pt
                          threshold_applied := s2.threshold
                          image_dimensions := [s2.image_width, s2.image_height] })

/-! ## Session creation (`services.py` lines 31-111) -/

/-- Database plus the upload directory on disk (paths of stored image
files). -/
structure SysState where
  db : DB
  files : List String
deriving DecidableEq, Repr

/-- Error surfaced by `create_detection_session`: the threshold
validation (HTTP 400 before any side effect) or a rolled-back
persistence failure (HTTP 400 from `SQLAlchemyError`). -/
inductive CreateError
  | validation
  | persistence
deriving DecidableEq, Repr

/-- `DetectionService._compute_file_hash` (`services.py` lines 220-231):
SHA-256 of the stored file, but any exception while reading is swallowed
and a `placeholder-<uuid4>` string is returned instead.  `hashProbe`
carries the outcome of reading/hashing the file (`none` = the read
failed); the fresh uuid4 of the placeholder is modelled by the session
id. -/
def compute_file_hash (hashProbe : Option String) (sid : Nat) : String :=
  match hashProbe with
  | some h => h
  | none => "placeholder-" ++ toString sid

/-- `DetectionService.create_detection_session` (`services.py` lines
31-111).  In source order: validate the threshold (HTTP 400, before any
side effect); write the image to `"<session_id>_<filename>"`; compute
the content hash (degrading to a placeholder, see `compute_file_hash`);
probe pixel dimensions (`dimsProbe`, degrading to `(0, 0)` on failure);
insert the session row and the image row and commit.  On a
`SQLAlchemyError` (`dbFail`), roll back and unlink the written file.
`sid` models the generated uuid4, `fileSize` the stored file's size,
`now` the `datetime.now()` timestamp. -/
def create_detection_session (st : SysState) (filename mime : String)
    (threshold : ℚ) (model_id : Option String) (sid : Nat)
    (hashProbe : Option String) (dimsProbe : Option (Nat × Nat))
    (fileSize : Nat) (dbFail : Bool) (now : Nat) :
    SysState × Except CreateError SessionRow :=
  if ¬ (0 ≤ threshold ∧ threshold ≤ 1) then
    (st, Except.error CreateError.validation)
  else
    let path := toString sid ++ "_" ++ filename
    let files1 := st.files ++ [path]
    let image_hash := compute_file_hash hashProbe sid
    let wh := dimsProbe.getD (0, 0)
    let srow : SessionRow :=
      { id := sid, threshold := threshold, image_hash := image_hash
        image_width := wh.1, image_height := wh.2
        model_id := model_id.getD "default_model"
        total_objects_detected := 0, processing_time_ms := 0
        created_at := now, updated_at := now, expired_at := none }
    if dbFail then
      ({ st with files := files1.filter (fun q => q ≠ path) },
       Except.error CreateError.persistence)
    else
      let irow : ImageRow :=
        { session_id := sid, storage_type := "local", image_path := path
          original_filename := filename, mime_type := mime
          file_size_bytes := fileSize
          storage_metadata := [("local_path", path)]
          updated_at := now, expired_at := none }
      let db1 : DB :=
        { st.db with sessions := st.db.sessions ++ [srow]
                     images := st.db.images ++ [irow] }
      ({ db := db1, files := files1 }, Except.ok srow)

/-! ## Derived helpers used to state and prove the claims -/

/-- Per-class tally of a list in first-seen order, continuing from the
dict `m` (the shape of every counting loop in the workflow). -/
def tallyFrom {α : Type} (key : α → String) (m : List (String × Nat))
    (l : List α) : List (String × Nat) :=
  l.foldl (fun acc a => bump acc (key a) 1) m

/-- The `Detection` row staged by `detect_objects` for one kept
prediction dict. -/
def detRowOf (sid now : Nat) (p : PredDict) : DetectionRow :=
  { session_id := sid, class_name := p.class_name, confidence := p.confidence
    bbox_x1 := p.bbox_x1, bbox_y1 := p.bbox_y1
    bbox_x2 := p.bbox_x2, bbox_y2 := p.bbox_y2
    updated_at := now, expired_at := none }

/-- The prediction dicts that pass the session-threshold check of
`detect_objects`. -/
def keptPreds (t : ℚ) (preds : List PredDict) : List PredDict :=
  preds.filter (fun p => t ≤ p.confidence)

/-- `.first()` lookup of a `(session_id, class_name)` count row,
projected to its count value. -/
def findCount (counts : List CountRow) (sid : Nat) (c : String) : Option Nat :=
  (counts.find? (fun r => r.session_id = sid ∧ r.class_name = c)).map
    (fun r => r.count)

/-- Projection of the counts table to the columns both backend
strategies write identically: `(session_id, class_name, count)`. -/
def countsProj (counts : List CountRow) : List (Nat × String × Nat) :=
  counts.map (fun r => (r.session_id, r.class_name, r.count))

/-- Upsert on projected count rows: the common effect of
`upsertCountRW` and `upsertCountAtomic`. -/
def pupsert : List (Nat × String × Nat) → Nat → String → Nat →
    List (Nat × String × Nat)
  | [], sid, c, v => [(sid, c, v)]
  | r :: rest, sid, c, v =>
      if r.1 = sid ∧ r.2.1 = c then (r.1, r.2.1, r.2.2 + v) :: rest
      else r :: pupsert rest sid c v

/-! ## Concrete fixtures for witnesses and counterexamples -/

/-- A live session with threshold `0.8` (the spec's worked example). -/
def exSession : SessionRow :=
  { id := 1, threshold := mkRat 4 5, image_hash := "h"
    image_width := 10, image_height := 20, model_id := "m"
    total_objects_detected := 0, processing_time_ms := 0
    created_at := 0, updated_at := 0, expired_at := none }

/-- A database holding only `exSession`. -/
def exDB : DB := { sessions := [exSession], detections := [], counts := [], images := [] }

/-- Prediction dict with confidence `0.9` (kept at threshold `0.8`). -/
def exPredHigh : PredDict :=
  { class_name := "cat", confidence := mkRat 9 10
    bbox_x1 := 0, bbox_y1 := 0, bbox_x2 := 1, bbox_y2 := 1 }

/-- Prediction dict with confidence `0.7` (dropped at threshold `0.8`). -/
def exPredLow : PredDict :=
  { class_name := "dog", confidence := mkRat 7 10
    bbox_x1 := 0, bbox_y1 := 0, bbox_x2 := 1, bbox_y2 := 1 }

/-- A detection row belonging to `exSession`. -/
def exDetection : DetectionRow :=
  { session_id := 1, class_name := "cat", confidence := mkRat 9 10
    bbox_x1 := 0, bbox_y1 := 0, bbox_x2 := 1, bbox_y2 := 1
    updated_at := 5, expired_at := none }

/-- `exDB` with one persisted detection row for the session. -/
def exDBdet : DB := { exDB with detections := [exDetection] }

/-- System state around `exDB` with an empty upload directory. -/
def exState : SysState := { db := exDB, files := [] }

/-- Endpoint-level prediction with confidence `0.95`. -/
def exPredPerson : Prediction :=
  { class_name := "person", score := mkRat 19 20
    xmin := mkRat 1 10, ymin := mkRat 2 10, xmax := mkRat 3 10, ymax := mkRat 4 10 }

/-- Endpoint-level prediction with confidence `0.3`. -/
def exPredCar : Prediction :=
  { class_name := "car", score := mkRat 3 10
    xmin := 0, ymin := 0, xmax := 1, ymax := 1 }

/-- Endpoint-level prediction with confidence `0.4`, strictly between a
request threshold of `0.3` and the default detector threshold `0.5`. -/
def exPredMid : Prediction :=
  { class_name := "dog", score := mkRat 2 5
    xmin := 0, ymin := 0, xmax := 1, ymax := 1 }

/-! ## Lemmas about the counting dict -/

theorem sumValues_bump (m : List (String × Nat)) (k : String) (v : Nat) :
    sumValues (bump m k v) = sumValues m + v := by
  induction m with
  | nil => simp [bump, sumValues]
  | cons kv rest ih =>
      obtain ⟨k0, v0⟩ := kv
      by_cases h : k0 = k
      · simp [bump, h, sumValues]
        omega
      · simp [bump, h, sumValues] at ih ⊢
        omega

theorem sumValues_tallyFrom {α : Type} (key : α → String)
    (l : List α) (m : List (String × Nat)) :
    sumValues (tallyFrom key m l) = sumValues m + l.length := by
  induction l generalizing m with
  | nil => simp [tallyFrom]
  | cons a rest ih =>
      simp only [tallyFrom, List.foldl_cons, List.length_cons] at ih ⊢
      rw [ih, sumValues_bump]
      omega

theorem lookupD_bump_self (m : List (String × Nat)) (k : String) (v : Nat) :
    lookupD (bump m k v) k = lookupD m k + v := by
  induction m with
  | nil => simp [bump, lookupD]
  | cons kv rest ih =>
      obtain ⟨k0, v0⟩ := kv
      by_cases h : k0 = k
      · simp [bump, h, lookupD]
      · simp [bump, h, lookupD, ih]

/-! ## Characterization of the endpoint filter loop -/

theorem foldl_filterStep (t : ℚ) (preds : List Prediction)
    (acc : List Prediction × List (String × Nat)) :
    preds.foldl (filterStep t) acc =
      (acc.1 ++ preds.filter (fun p => t ≤ p.score),
       tallyFrom (fun p => p.class_name) acc.2
         (preds.filter (fun p => t ≤ p.score))) := by
  induction preds generalizing acc with
  | nil => simp [tallyFrom]
  | cons p rest ih =>
      by_cases h : t ≤ p.score
      · simp [filterStep, h, ih, tallyFrom]
      · simp [filterStep, h, ih]

theorem filter_and_count_fst (preds : List Prediction) (t : ℚ) :
    (filter_and_count preds t).1 = preds.filter (fun p => t ≤ p.score) := by
  rw [filter_and_count, foldl_filterStep]
  simp

theorem filter_and_count_snd (preds : List Prediction) (t : ℚ) :
    (filter_and_count preds t).2 = countsOf (filter_and_count preds t).1 := by
  rw [filter_and_count, foldl_filterStep]
  rfl

theorem sumValues_countsOf (l : List Prediction) :
    sumValues (countsOf l) = l.length := by
  have h := sumValues_tallyFrom (fun p : Prediction => p.class_name) l []
  simpa [tallyFrom, countsOf, sumValues] using h

/-- C2: for every threshold `t ∈ [0,1]` and every prediction list, the
endpoint's prediction filter keeps exactly the predictions whose
confidence is at least `t` (inclusive boundary), the kept list preserves
input order, the per-class counts are computed only over kept
predictions, and the sum of the count map's values equals the length of
the kept list. -/
theorem C2_filter_and_count_spec (t : ℚ) (h : 0 ≤ t ∧ t ≤ 1)
    (preds : List Prediction) :
    (filter_and_count preds t).1 = preds.filter (fun p => t ≤ p.score)
    ∧ List.Sublist (filter_and_count preds t).1 preds
    ∧ (∀ p, p ∈ (filter_and_count preds t).1 ↔ p ∈ preds ∧ t ≤ p.score)
    ∧ (filter_and_count preds t).2 = countsOf (filter_and_count preds t).1
    ∧ sumValues (filter_and_count preds t).2 =
        (filter_and_count preds t).1.length := by
  refine ⟨filter_and_count_fst preds t, ?_, ?_, filter_and_count_snd preds t, ?_⟩
  · rw [filter_and_count_fst]
    exact List.filter_sublist preds
  · intro p
    rw [filter_and_count_fst]
    simp [List.mem_filter]
  · rw [filter_and_count_snd, filter_and_count_fst, sumValues_countsOf]

/-- Witness for C2 at `t = 0.5` and three concrete predictions. -/
theorem C2_filter_and_count_spec_witness :
    ((0:ℚ) ≤ mkRat 1 2 ∧ (mkRat 1 2 : ℚ) ≤ 1)
    ∧ ((filter_and_count [exPredPerson, exPredMid, exPredCar] (mkRat 1 2)).1 =
          [exPredPerson, exPredMid, exPredCar].filter (fun p => mkRat 1 2 ≤ p.score)
       ∧ List.Sublist (filter_and_count [exPredPerson, exPredMid, exPredCar] (mkRat 1 2)).1
           [exPredPerson, exPredMid, exPredCar]
       ∧ (∀ p, p ∈ (filter_and_count [exPredPerson, exPredMid, exPredCar] (mkRat 1 2)).1 ↔
            p ∈ [exPredPerson, exPredMid, exPredCar] ∧ mkRat 1 2 ≤ p.score)
       ∧ (filter_and_count [exPredPerson, exPredMid, exPredCar] (mkRat 1 2)).2 =
            countsOf (filter_and_count [exPredPerson, exPredMid, exPredCar] (mkRat 1 2)).1
       ∧ sumValues (filter_and_count [exPredPerson, exPredMid, exPredCar] (mkRat 1 2)).2 =
            (filter_and_count [exPredPerson, exPredMid, exPredCar] (mkRat 1 2)).1.length) :=
  ⟨by decide, C2_filter_and_count_spec (mkRat 1 2) (by decide)
      [exPredPerson, exPredMid, exPredCar]⟩

/-- C10: the detector's `predict` pre-filters its output at the
detector's own configured confidence threshold (default `0.5`) before
the caller's requested threshold is applied, so a prediction whose score
lies at or above the request threshold but strictly below the configured
one never appears in the detector output, in the response results, or in
the `db_predictions` list sent for persistence. -/
theorem C10_detector_prefilter (ct t : ℚ) (raw : List Prediction)
    (p : Prediction) (h1 : t ≤ p.score) (h2 : p.score < ct) :
    p ∉ predict ct raw
    ∧ p ∉ (filter_and_count (predict ct raw) t).1
    ∧ p ∉ db_predictions (predict ct raw) t := by
  have hmem : p ∉ predict ct raw := by
    intro hp
    rw [predict, filter_predictions, List.mem_filter] at hp
    have : ct ≤ p.score := by simpa using hp.2
    exact absurd this (not_le.mpr h2)
  refine ⟨hmem, ?_, ?_⟩
  · rw [filter_and_count_fst]
    intro hp
    exact hmem (List.mem_of_mem_filter hp)
  · intro hp
    exact hmem (List.mem_of_mem_filter hp)

/-- Witness for C10: request threshold `0.3`, configured detector
threshold `0.5` (the default), and a prediction of confidence `0.4`. -/
theorem C10_detector_prefilter_witness :
    ((mkRat 3 10 : ℚ) ≤ exPredMid.score
      ∧ exPredMid.score < defaultConfidenceThreshold)
    ∧ (exPredMid ∉ predict defaultConfidenceThreshold
          [exPredPerson, exPredMid, exPredCar]
       ∧ exPredMid ∉ (filter_and_count
            (predict defaultConfidenceThreshold [exPredPerson, exPredMid, exPredCar])
            (mkRat 3 10)).1
       ∧ exPredMid ∉ db_predictions
            (predict defaultConfidenceThreshold [exPredPerson, exPredMid, exPredCar])
            (mkRat 3 10)) :=
  ⟨⟨by decide, by decide⟩,
   C10_detector_prefilter defaultConfidenceThreshold (mkRat 3 10)
     [exPredPerson, exPredMid, exPredCar] exPredMid (by decide) (by decide)⟩

/-! ## Lemmas about session lookups -/

theorem filter_live_of_filter_id (l : List SessionRow) (sid : Nat) (s : SessionRow)
    (h : l.filter (fun r => r.id = sid) = [s]) (hlive : s.expired_at = none) :
    l.filter (fun r => r.id = sid ∧ r.expired_at = none) = [s] := by
  have hstep : l.filter (fun r => r.id = sid ∧ r.expired_at = none) =
      (l.filter (fun r => r.id = sid)).filter (fun r => r.expired_at = none) := by
    rw [List.filter_filter]
    apply List.filter_congr
    intro r _
    simp [Bool.decide_and, Bool.and_comm]
  rw [hstep, h]
  simp [hlive]

theorem get_by_id_eq (db : DB) (sid : Nat) (s : SessionRow)
    (h : db.sessions.filter (fun r => r.id = sid) = [s])
    (hlive : s.expired_at = none) :
    get_by_id db sid = some s := by
  rw [get_by_id, filter_live_of_filter_id db.sessions sid s h hlive]

theorem get_session_threshold_eq (db : DB) (sid : Nat) (s : SessionRow)
    (h : db.sessions.filter (fun r => r.id = sid) = [s])
    (hlive : s.expired_at = none) :
    get_session_threshold db sid = some s.threshold := by
  rw [get_session_threshold, get_by_id_eq db sid s h hlive]
  rfl

theorem oneSession_eq (db : DB) (sid : Nat) (s : SessionRow)
    (h : db.sessions.filter (fun r => r.id = sid) = [s]) :
    oneSession db sid = some s := by
  rw [oneSession, h]

theorem filter_map_invariant {α : Type} (l : List α) (f : α → α) (p : α → Bool)
    (hf : ∀ r, p (f r) = p r) :
    (l.map f).filter p = (l.filter p).map f := by
  rw [List.filter_map]
  exact congrArg (List.map f) (List.filter_congr (fun a _ => hf a))

/-! ## Characterization of the detect_objects prediction loop -/

theorem detectLoop_spec (db : DB) (sid : Nat) (now : Nat) (t : ℚ)
    (h : get_session_threshold db sid = some t) (preds : List PredDict) :
    ∀ dets cnts total, detectLoop db sid now preds (dets, cnts, total) =
      some (dets ++ (keptPreds t preds).map (detRowOf sid now),
            tallyFrom (fun p => p.class_name) cnts (keptPreds t preds),
            total + (keptPreds t preds).length) := by
  induction preds with
  | nil =>
      intro dets cnts total
      simp [detectLoop, keptPreds, tallyFrom]
  | cons p rest ih =>
      intro dets cnts total
      simp only [detectLoop, h]
      by_cases hc : t ≤ p.confidence
      · simp only [if_pos hc, ih]
        simp [keptPreds, List.filter_cons, hc, tallyFrom, detRowOf]
        omega
      · simp only [if_neg hc, ih]
        simp [keptPreds, List.filter_cons, hc]

/-! ## Session-row mutations preserve id and liveness -/

theorem setTotal_id (sid total now : Nat) (r : SessionRow) :
    (setTotal sid total now r).id = r.id := by
  unfold setTotal
  by_cases h : r.id = sid <;> simp [h]

theorem setTotal_expired (sid total now : Nat) (r : SessionRow) :
    (setTotal sid total now r).expired_at = r.expired_at := by
  unfold setTotal
  by_cases h : r.id = sid <;> simp [h]

theorem setTotalOnly_id (sid total : Nat) (r : SessionRow) :
    (setTotalOnly sid total r).id = r.id := by
  unfold setTotalOnly
  by_cases h : r.id = sid <;> simp [h]

theorem setTotalOnly_expired (sid total : Nat) (r : SessionRow) :
    (setTotalOnly sid total r).expired_at = r.expired_at := by
  unfold setTotalOnly
  by_cases h : r.id = sid <;> simp [h]

theorem finalizeSession_id (sid total pt now : Nat) (r : SessionRow) :
    (finalizeSession sid total pt now r).id = r.id := by
  unfold finalizeSession
  by_cases h : r.id = sid ∧ r.expired_at = none <;> simp [h]

theorem finalizeSession_expired (sid total pt now : Nat) (r : SessionRow) :
    (finalizeSession sid total pt now r).expired_at = r.expired_at := by
  unfold finalizeSession
  by_cases h : r.id = sid ∧ r.expired_at = none <;> simp [h]

theorem expireSession_id (sid now : Nat) (r : SessionRow) :
    (expireSession sid now r).id = r.id := by
  unfold expireSession
  by_cases h : r.id = sid <;> simp [h]

theorem filter_id_map (l : List SessionRow) (f : SessionRow → SessionRow)
    (hid : ∀ r, (f r).id = r.id) (sid : Nat) :
    (l.map f).filter (fun r => r.id = sid) =
      (l.filter (fun r => r.id = sid)).map f :=
  filter_map_invariant l f _ (fun r => by simp [hid r])

theorem get_by_id_mapped (l : List SessionRow) (dets : List DetectionRow)
    (cnts : List CountRow) (imgs : List ImageRow)
    (f : SessionRow → SessionRow)
    (hid : ∀ r, (f r).id = r.id) (hex : ∀ r, (f r).expired_at = r.expired_at)
    (sid : Nat) (s : SessionRow)
    (h : l.filter (fun r => r.id = sid) = [s]) (hlive : s.expired_at = none) :
    get_by_id ⟨l.map f, dets, cnts, imgs⟩ sid = some (f s) := by
  have hfil : (l.map f).filter (fun r => r.id = sid) = [f s] := by
    rw [filter_id_map l f hid sid, h]
    rfl
  exact get_by_id_eq _ sid (f s) hfil (by rw [hex s]; exact hlive)

/-- C3: for every existing live session and every prediction list,
`record_detections` (`detect_objects`) filters each prediction against
the session's own stored threshold (re-fetched inside the call via
`get_session_threshold`), inserts one `Detection` row per kept
prediction, and sets the session's `total_objects_detected` — and the
summary's — to the number of kept predictions of this call. -/
theorem C3_record_detections_threshold (db : DB) (sid : Nat) (s : SessionRow)
    (hs : db.sessions.filter (fun r => r.id = sid) = [s])
    (hlive : s.expired_at = none)
    (preds : List PredDict) (now pt : Nat) :
    (detect_objects db sid preds now pt FailPoint.noFail).1.detections =
        db.detections ++ (keptPreds s.threshold preds).map (detRowOf sid now)
    ∧ (get_by_id (detect_objects db sid preds now pt FailPoint.noFail).1 sid).map
        (fun x => x.total_objects_detected) = some (keptPreds s.threshold preds).length
    ∧ ((detect_objects db sid preds now pt FailPoint.noFail).2).map
        (fun sm => sm.total_objects_detected) = some (keptPreds s.threshold preds).length := by
  have hth := get_session_threshold_eq db sid s hs hlive
  have hloop := detectLoop_spec db sid now s.threshold hth preds [] [] 0
  have hmem : s ∈ db.sessions.filter (fun r => r.id = sid) := by
    rw [hs]
    exact List.mem_singleton_self s
  have hsid : s.id = sid := by
    have := (List.mem_filter.mp hmem).2
    simpa using this
  simp only [detect_objects, hloop, List.nil_append, Nat.zero_add,
    if_neg (show ¬ FailPoint.noFail = FailPoint.atSaveCounts from by decide),
    if_neg (show ¬ FailPoint.noFail = FailPoint.atFinalCommit from by decide)]
  have hone : oneSession
      (⟨db.sessions,
        db.detections ++ List.map (detRowOf sid now) (keptPreds s.threshold preds),
        db.counts, db.images⟩ : DB) sid = some s :=
    oneSession_eq _ sid s hs
  simp only [save_counts_mysql, hone]
  have hgb1 := get_by_id_mapped db.sessions
    (db.detections ++ List.map (detRowOf sid now) (keptPreds s.threshold preds))
    (List.foldl (fun cs kv => upsertCountRW cs sid kv.1 kv.2 now) db.counts
      (tallyFrom (fun p => p.class_name) [] (keptPreds s.threshold preds)))
    db.images
    (setTotal sid (sumValues (tallyFrom (fun p => p.class_name) [] (keptPreds s.threshold preds))) now)
    (setTotal_id _ _ _) (setTotal_expired _ _ _) sid s hs hlive
  simp only [hgb1]
  have hfil1 : (db.sessions.map
      (setTotal sid (sumValues (tallyFrom (fun p => p.class_name) [] (keptPreds s.threshold preds))) now)).filter
        (fun r => r.id = sid)
      = [setTotal sid (sumValues (tallyFrom (fun p => p.class_name) [] (keptPreds s.threshold preds))) now s] := by
    rw [filter_id_map _ _ (setTotal_id _ _ _) sid, hs]
    rfl
  have hgb2 := get_by_id_mapped
    (db.sessions.map
      (setTotal sid (sumValues (tallyFrom (fun p => p.class_name) [] (keptPreds s.threshold preds))) now))
    (db.detections ++ List.map (detRowOf sid now) (keptPreds s.threshold preds))
    (List.foldl (fun cs kv => upsertCountRW cs sid kv.1 kv.2 now) db.counts
      (tallyFrom (fun p => p.class_name) [] (keptPreds s.threshold preds)))
    db.images
    (finalizeSession sid (keptPreds s.threshold preds).length pt now)
    (finalizeSession_id _ _ _ _) (finalizeSession_expired _ _ _ _) sid
    (setTotal sid (sumValues (tallyFrom (fun p => p.class_name) [] (keptPreds s.threshold preds))) now s)
    hfil1 (by rw [setTotal_expired]; exact hlive)
  simp only [hgb2]
  refine ⟨by trivial, ?_, by trivial⟩
  simp only [Option.map_some']
  have hid2 : (setTotal sid (sumValues (tallyFrom (fun p => p.class_name) [] (keptPreds s.threshold preds))) now s).id = sid := by
    rw [setTotal_id]
    exact hsid
  have hex2 : (setTotal sid (sumValues (tallyFrom (fun p => p.class_name) [] (keptPreds s.threshold preds))) now s).expired_at = none := by
    rw [setTotal_expired]
    exact hlive
  simp [finalizeSession, hid2, hex2]

/-- Witness for C3: session with threshold `0.8` and prediction
confidences `[0.9, 0.7]` — exactly one Detection row is persisted and
`total_objects_detected` is `1` (note
`keptPreds exSession.threshold [exPredHigh, exPredLow] = [exPredHigh]`). -/
theorem C3_record_detections_threshold_witness :
    (exDB.sessions.filter (fun r => r.id = 1) = [exSession]
      ∧ exSession.expired_at = none)
    ∧ ((detect_objects exDB 1 [exPredHigh, exPredLow] 5 7 FailPoint.noFail).1.detections =
          exDB.detections ++
            (keptPreds exSession.threshold [exPredHigh, exPredLow]).map (detRowOf 1 5)
       ∧ (get_by_id (detect_objects exDB 1 [exPredHigh, exPredLow] 5 7 FailPoint.noFail).1 1).map
            (fun x => x.total_objects_detected) =
              some (keptPreds exSession.threshold [exPredHigh, exPredLow]).length
       ∧ ((detect_objects exDB 1 [exPredHigh, exPredLow] 5 7 FailPoint.noFail).2).map
            (fun sm => sm.total_objects_detected) =
              some (keptPreds exSession.threshold [exPredHigh, exPredLow]).length) :=
  ⟨⟨by decide, by decide⟩,
   C3_record_detections_threshold exDB 1 exSession (by decide) (by decide)
     [exPredHigh, exPredLow] 5 7⟩

/-- Counterexample to C1: a persistence failure at the final
`self.db.commit()` of `detect_objects` (after `save_counts` already
committed) leaves the staged Detection row durably persisted even though
the call fails — the call is not all-or-nothing and spans two commits,
contradicting the claim that no Detection row survives a failure at any
point. -/
theorem C1_not_atomic_counterexample :
    (detect_objects exDB 1 [exPredHigh] 5 7 FailPoint.atFinalCommit).2 = none
    ∧ (detect_objects exDB 1 [exPredHigh] 5 7 FailPoint.atFinalCommit).1.detections ≠
        exDB.detections := by
  constructor
  · decide
  · decide

/-- C1 (amended): `record_detections` spans two transactions.  A
persistence failure at or inside `save_counts` rolls everything back
(the staged detections were never committed), but `save_counts` itself
commits the staged Detection rows, the count upserts and the
session-total update mid-call; a failure at the final commit therefore
retains all of those and loses only the processing-time update. -/
theorem C1_two_transactions (db : DB) (sid : Nat) (s : SessionRow)
    (hs : db.sessions.filter (fun r => r.id = sid) = [s])
    (hlive : s.expired_at = none)
    (preds : List PredDict) (now pt : Nat) :
    detect_objects db sid preds now pt FailPoint.atSaveCounts = (db, none)
    ∧ (detect_objects db sid preds now pt FailPoint.atFinalCommit).2 = none
    ∧ (detect_objects db sid preds now pt FailPoint.atFinalCommit).1.detections =
        db.detections ++ (keptPreds s.threshold preds).map (detRowOf sid now)
    ∧ (get_by_id (detect_objects db sid preds now pt FailPoint.atFinalCommit).1 sid).map
        (fun x => x.total_objects_detected) = some (keptPreds s.threshold preds).length
    ∧ (get_by_id (detect_objects db sid preds now pt FailPoint.atFinalCommit).1 sid).map
        (fun x => x.processing_time_ms) = some s.processing_time_ms := by
  have hth := get_session_threshold_eq db sid s hs hlive
  have hloop := detectLoop_spec db sid now s.threshold hth preds [] [] 0
  have hmem : s ∈ db.sessions.filter (fun r => r.id = sid) := by
    rw [hs]
    exact List.mem_singleton_self s
  have hsid : s.id = sid := by
    have := (List.mem_filter.mp hmem).2
    simpa using this
  refine ⟨?_, ?_⟩
  · simp [detect_objects, hloop]
  · simp only [detect_objects, hloop, List.nil_append, Nat.zero_add,
      if_neg (show ¬ FailPoint.atFinalCommit = FailPoint.atSaveCounts from by decide)]
    have hone : oneSession
        (⟨db.sessions,
          db.detections ++ List.map (detRowOf sid now) (keptPreds s.threshold preds),
          db.counts, db.images⟩ : DB) sid = some s :=
      oneSession_eq _ sid s hs
    simp only [save_counts_mysql, hone]
    have hgb1 := get_by_id_mapped db.sessions
      (db.detections ++ List.map (detRowOf sid now) (keptPreds s.threshold preds))
      (List.foldl (fun cs kv => upsertCountRW cs sid kv.1 kv.2 now) db.counts
        (tallyFrom (fun p => p.class_name) [] (keptPreds s.threshold preds)))
      db.images
      (setTotal sid (sumValues (tallyFrom (fun p => p.class_name) [] (keptPreds s.threshold preds))) now)
      (setTotal_id _ _ _) (setTotal_expired _ _ _) sid s hs hlive
    simp only [hgb1, if_true, Option.map_some']
    refine ⟨by trivial, by trivial, ?_, ?_⟩
    · have hsum : sumValues (tallyFrom (fun p : PredDict => p.class_name) [] (keptPreds s.threshold preds))
          = (keptPreds s.threshold preds).length := by
        rw [sumValues_tallyFrom]
        simp [sumValues]
      simp [setTotal, hsid, hsum]
    · simp [setTotal, hsid]

/-- Witness for the amended C1 at the concrete example database. -/
theorem C1_two_transactions_witness :
    (exDB.sessions.filter (fun r => r.id = 1) = [exSession]
      ∧ exSession.expired_at = none)
    ∧ (detect_objects exDB 1 [exPredHigh, exPredLow] 5 7 FailPoint.atSaveCounts =
          (exDB, none)
       ∧ (detect_objects exDB 1 [exPredHigh, exPredLow] 5 7 FailPoint.atFinalCommit).2 = none
       ∧ (detect_objects exDB 1 [exPredHigh, exPredLow] 5 7 FailPoint.atFinalCommit).1.detections =
            exDB.detections ++
              (keptPreds exSession.threshold [exPredHigh, exPredLow]).map (detRowOf 1 5)
       ∧ (get_by_id (detect_objects exDB 1 [exPredHigh, exPredLow] 5 7 FailPoint.atFinalCommit).1 1).map
            (fun x => x.total_objects_detected) =
              some (keptPreds exSession.threshold [exPredHigh, exPredLow]).length
       ∧ (get_by_id (detect_objects exDB 1 [exPredHigh, exPredLow] 5 7 FailPoint.atFinalCommit).1 1).map
            (fun x => x.processing_time_ms) = some exSession.processing_time_ms) :=
  ⟨⟨by decide, by decide⟩,
   C1_two_transactions exDB 1 exSession (by decide) (by decide)
     [exPredHigh, exPredLow] 5 7⟩

/-- Counterexample to C5: after soft-deleting the session,
`get_session_threshold` does fail (NotFound), but `get_detections`
still returns the session's detection rows — its query filters only on
`session_id`, with no `expired_at IS NULL` condition, contradicting the
claim that every read query of the workflow returns only live rows. -/
theorem C5_soft_delete_counterexample :
    get_session_threshold (soft_delete_session exDBdet 1 9) 1 = none
    ∧ get_detections (soft_delete_session exDBdet 1 9) 1 ≠ [] := by
  constructor
  · decide
  · decide

/-- C5 (amended): `get_session_threshold` goes through `get_by_id`,
which filters `expired_at IS NULL`, so a soft-deleted session yields
NotFound and its row still physically exists (marked expired); but
`get_detections` filters only on `session_id`, so it keeps returning the
soft-deleted session's detection rows unchanged. -/
theorem C5_soft_delete_reads (db : DB) (sid : Nat) (s : SessionRow)
    (hs : db.sessions.filter (fun r => r.id = sid) = [s])
    (hlive : s.expired_at = none) (now : Nat) :
    get_session_threshold (soft_delete_session db sid now) sid = none
    ∧ get_detections (soft_delete_session db sid now) sid = get_detections db sid
    ∧ (soft_delete_session db sid now).sessions.filter (fun r => r.id = sid) =
        [{ s with expired_at := some now }] := by
  have hmem : s ∈ db.sessions.filter (fun r => r.id = sid) := by
    rw [hs]
    exact List.mem_singleton_self s
  have hsid : s.id = sid := by
    have := (List.mem_filter.mp hmem).2
    simpa using this
  refine ⟨?_, rfl, ?_⟩
  · rw [get_session_threshold, get_by_id]
    have hnil : (soft_delete_session db sid now).sessions.filter
        (fun r => r.id = sid ∧ r.expired_at = none) = [] := by
      rw [List.filter_eq_nil_iff]
      intro r hr
      rw [soft_delete_session] at hr
      simp only [List.mem_map] at hr
      obtain ⟨r0, _, hr0⟩ := hr
      subst hr0
      rw [expireSession]
      by_cases h0 : r0.id = sid
      · simp [h0]
      · simp [h0]
    rw [hnil]
    rfl
  · rw [soft_delete_session]
    have := filter_id_map db.sessions (expireSession sid now) (expireSession_id sid now) sid
    simp only [this, hs]
    simp [expireSession, hsid]

/-- Witness for the amended C5 at the concrete example database. -/
theorem C5_soft_delete_reads_witness :
    (exDBdet.sessions.filter (fun r => r.id = 1) = [exSession]
      ∧ exSession.expired_at = none)
    ∧ (get_session_threshold (soft_delete_session exDBdet 1 9) 1 = none
       ∧ get_detections (soft_delete_session exDBdet 1 9) 1 = get_detections exDBdet 1
       ∧ (soft_delete_session exDBdet 1 9).sessions.filter (fun r => r.id = 1) =
           [{ exSession with expired_at := some 9 }]) :=
  ⟨⟨by decide, by decide⟩,
   C5_soft_delete_reads exDBdet 1 exSession (by decide) (by decide) 9⟩

/-- C6: for every threshold outside `[0, 1]`, `create_detection_session`
fails with a ValidationError and has no side effects whatsoever — the
system state (all four tables and the upload directory) is returned
untouched, for any failure flags. -/
theorem C6_invalid_threshold (st : SysState) (filename mime : String)
    (threshold : ℚ) (model_id : Option String) (sid : Nat)
    (hashProbe : Option String) (dimsProbe : Option (Nat × Nat))
    (fileSize : Nat) (dbFail : Bool) (now : Nat)
    (h : ¬ (0 ≤ threshold ∧ threshold ≤ 1)) :
    create_detection_session st filename mime threshold model_id sid
        hashProbe dimsProbe fileSize dbFail now =
      (st, Except.error CreateError.validation) := by
  rw [create_detection_session, if_pos h]

/-- Witness for C6 at threshold `1.5`. -/
theorem C6_invalid_threshold_witness :
    (¬ ((0:ℚ) ≤ mkRat 3 2 ∧ (mkRat 3 2 : ℚ) ≤ 1))
    ∧ create_detection_session exState "f.jpg" "image/jpeg" (mkRat 3 2) none 2
        (some "h") (some (3, 4)) 100 false 5 =
      (exState, Except.error CreateError.validation) :=
  ⟨by decide,
   C6_invalid_threshold exState "f.jpg" "image/jpeg" (mkRat 3 2) none 2
     (some "h") (some (3, 4)) 100 false 5 (by decide)⟩

/-- C8: if the database transaction of `create_detection_session` fails
after the image file has been written, the written file is unlinked and
the transaction is rolled back: the resulting state equals the initial
state exactly — no orphaned file, no session row, no image row. -/
theorem C8_rollback_cleanup (st : SysState) (filename mime : String)
    (threshold : ℚ) (model_id : Option String) (sid : Nat)
    (hashProbe : Option String) (dimsProbe : Option (Nat × Nat))
    (fileSize : Nat) (now : Nat)
    (hv : 0 ≤ threshold ∧ threshold ≤ 1)
    (hfresh : (toString sid ++ "_" ++ filename) ∉ st.files) :
    create_detection_session st filename mime threshold model_id sid
        hashProbe dimsProbe fileSize true now =
      (st, Except.error CreateError.persistence) := by
  have hfiles : (st.files ++ [toString sid ++ "_" ++ filename]).filter
      (fun q => q ≠ (toString sid ++ "_" ++ filename)) = st.files := by
    rw [List.filter_append]
    have h1 : st.files.filter (fun q => q ≠ (toString sid ++ "_" ++ filename)) = st.files := by
      rw [List.filter_eq_self]
      intro a ha
      simp only [decide_eq_true_eq]
      intro he
      exact hfresh (he ▸ ha)
    have h2 : ([toString sid ++ "_" ++ filename].filter
        (fun q => q ≠ (toString sid ++ "_" ++ filename))) = [] := by
      simp
    rw [h1, h2, List.append_nil]
  simp only [create_detection_session, if_neg (not_not_intro hv), hfiles]
  rfl

/-- Witness for C8 at a concrete fresh upload path. -/
theorem C8_rollback_cleanup_witness :
    (((0:ℚ) ≤ mkRat 1 2 ∧ (mkRat 1 2 : ℚ) ≤ 1)
      ∧ (toString 2 ++ "_" ++ "f.jpg") ∉ exState.files)
    ∧ create_detection_session exState "f.jpg" "image/jpeg" (mkRat 1 2) none 2
        (some "h") (some (3, 4)) 100 true 5 =
      (exState, Except.error CreateError.persistence) :=
  ⟨⟨by decide, by decide⟩,
   C8_rollback_cleanup exState "f.jpg" "image/jpeg" (mkRat 1 2) none 2
     (some "h") (some (3, 4)) 100 5 (by decide) (by decide)⟩

/-- Counterexample to C9: a failure while reading the stored file for
hashing is silently swallowed by `_compute_file_hash` — the request
still succeeds, with a placeholder hash, so dimension probing is not the
only swallowed failure. -/
theorem C9_hash_swallow_counterexample :
    ((create_detection_session exState "f.jpg" "image/jpeg" (mkRat 1 2) none 2
        none (some (3, 4)) 100 false 5).2).map (fun s => s.image_hash) =
      Except.ok "placeholder-2" := by rfl

/-- C9 (amended): `create_detection_session` silently degrades in
exactly two places — a failed dimension probe yields `(0, 0)` and a
failed hash computation yields a `placeholder-<uuid>` hash, both without
failing the request — while a database persistence failure propagates as
an error. -/
theorem C9_degrade_sites (st : SysState) (filename mime : String)
    (threshold : ℚ) (model_id : Option String) (sid : Nat)
    (hashProbe : Option String) (dimsProbe : Option (Nat × Nat))
    (fileSize now : Nat)
    (hv : 0 ≤ threshold ∧ threshold ≤ 1) :
    ((create_detection_session st filename mime threshold model_id sid
        hashProbe none fileSize false now).2).map
          (fun s => (s.image_width, s.image_height)) = Except.ok (0, 0)
    ∧ ((create_detection_session st filename mime threshold model_id sid
        none dimsProbe fileSize false now).2).map (fun s => s.image_hash) =
          Except.ok ("placeholder-" ++ toString sid)
    ∧ (create_detection_session st filename mime threshold model_id sid
        hashProbe dimsProbe fileSize true now).2 =
          Except.error CreateError.persistence := by
  refine ⟨?_, ?_, ?_⟩
  · rw [create_detection_session, if_neg (not_not_intro hv)]
    rfl
  · rw [create_detection_session, if_neg (not_not_intro hv)]
    rfl
  · rw [create_detection_session, if_neg (not_not_intro hv)]
    rfl

/-- Witness for the amended C9 at concrete probe outcomes. -/
theorem C9_degrade_sites_witness :
    ((0:ℚ) ≤ mkRat 1 2 ∧ (mkRat 1 2 : ℚ) ≤ 1)
    ∧ (((create_detection_session exState "f.jpg" "image/jpeg" (mkRat 1 2) none 2
          (some "h") none 100 false 5).2).map
            (fun s => (s.image_width, s.image_height)) = Except.ok (0, 0)
       ∧ ((create_detection_session exState "f.jpg" "image/jpeg" (mkRat 1 2) none 2
          none (some (3, 4)) 100 false 5).2).map (fun s => s.image_hash) =
            Except.ok ("placeholder-" ++ toString 2)
       ∧ (create_detection_session exState "f.jpg" "image/jpeg" (mkRat 1 2) none 2
          (some "h") (some (3, 4)) 100 true 5).2 =
            Except.error CreateError.persistence) :=
  ⟨by decide,
   C9_degrade_sites exState "f.jpg" "image/jpeg" (mkRat 1 2) none 2
     (some "h") (some (3, 4)) 100 5 (by decide)⟩

/-! ## Lemmas about the count upserts -/

theorem findCount_upsertRW_self (cs : List CountRow) (sid : Nat) (c : String) (v now : Nat) :
    findCount (upsertCountRW cs sid c v now) sid c =
      some ((findCount cs sid c).getD 0 + v) := by
  induction cs with
  | nil => simp [upsertCountRW, findCount]
  | cons r rest ih =>
      by_cases h : r.session_id = sid ∧ r.class_name = c
      · simp [upsertCountRW, h, findCount, List.find?_cons]
      · simp only [upsertCountRW, if_neg h]
        simp only [findCount, List.find?_cons] at ih ⊢
        by_cases hp : (decide (r.session_id = sid ∧ r.class_name = c)) = true
        · exact absurd (of_decide_eq_true hp) h
        · simp only [hp]
          exact ih

theorem findCount_upsertRW_other (cs : List CountRow) (sid : Nat) (c : String) (v now : Nat)
    (c' : String) (hne : c' ≠ c) :
    findCount (upsertCountRW cs sid c v now) sid c' = findCount cs sid c' := by
  induction cs with
  | nil => simp [upsertCountRW, findCount, Ne.symm hne]
  | cons r rest ih =>
      by_cases h : r.session_id = sid ∧ r.class_name = c
      · have hrp : ¬ (r.session_id = sid ∧ r.class_name = c') := by
          intro hc
          exact hne (hc.2 ▸ h.2 ▸ rfl)
        simp [upsertCountRW, h, findCount, List.find?_cons, hrp, hne, Ne.symm hne]
      · simp only [upsertCountRW, if_neg h]
        simp only [findCount, List.find?_cons] at ih ⊢
        by_cases hp : (decide (r.session_id = sid ∧ r.class_name = c')) = true
        · simp only [hp]
        · simp only [hp]
          exact ih

theorem findCount_upsertAtomic_self (cs : List CountRow) (sid : Nat) (c : String) (v now : Nat) :
    findCount (upsertCountAtomic cs sid c v now) sid c =
      some ((findCount cs sid c).getD 0 + v) := by
  induction cs with
  | nil => simp [upsertCountAtomic, findCount]
  | cons r rest ih =>
      by_cases h : r.session_id = sid ∧ r.class_name = c
      · simp [upsertCountAtomic, h, findCount, List.find?_cons]
      · simp only [upsertCountAtomic, if_neg h]
        simp only [findCount, List.find?_cons] at ih ⊢
        by_cases hp : (decide (r.session_id = sid ∧ r.class_name = c)) = true
        · exact absurd (of_decide_eq_true hp) h
        · simp only [hp]
          exact ih

theorem findCount_upsertAtomic_other (cs : List CountRow) (sid : Nat) (c : String) (v now : Nat)
    (c' : String) (hne : c' ≠ c) :
    findCount (upsertCountAtomic cs sid c v now) sid c' = findCount cs sid c' := by
  induction cs with
  | nil => simp [upsertCountAtomic, findCount, Ne.symm hne]
  | cons r rest ih =>
      by_cases h : r.session_id = sid ∧ r.class_name = c
      · have hrp : ¬ (r.session_id = sid ∧ r.class_name = c') := by
          intro hc
          exact hne (hc.2 ▸ h.2 ▸ rfl)
        simp [upsertCountAtomic, h, findCount, List.find?_cons, hrp, hne, Ne.symm hne]
      · simp only [upsertCountAtomic, if_neg h]
        simp only [findCount, List.find?_cons] at ih ⊢
        by_cases hp : (decide (r.session_id = sid ∧ r.class_name = c')) = true
        · simp only [hp]
        · simp only [hp]
          exact ih

theorem findCount_foldRW (sid now : Nat) (m : List (String × Nat)) :
    ∀ (cs : List CountRow) (c : String), (m.map Prod.fst).Nodup →
      findCount (m.foldl (fun cs kv => upsertCountRW cs sid kv.1 kv.2 now) cs) sid c =
        (if c ∈ m.map Prod.fst
         then some ((findCount cs sid c).getD 0 + lookupD m c)
         else findCount cs sid c) := by
  induction m with
  | nil =>
      intro cs c _
      simp [lookupD]
  | cons kv rest ih =>
      intro cs c hnd
      obtain ⟨k, v⟩ := kv
      simp only [List.map_cons, List.nodup_cons] at hnd
      obtain ⟨hk, hnd'⟩ := hnd
      simp only [List.foldl_cons]
      rw [ih _ c hnd']
      by_cases hc : c = k
      · subst hc
        rw [if_neg (by simpa using hk), if_pos (by simp)]
        rw [findCount_upsertRW_self]
        simp [lookupD]
      · rw [findCount_upsertRW_other _ _ _ _ _ _ hc]
        by_cases hmem : c ∈ rest.map Prod.fst
        · rw [if_pos hmem, if_pos (by simp [hmem])]
          simp [lookupD, Ne.symm hc]
        · rw [if_neg hmem, if_neg (by simp [hmem, hc])]

theorem findCount_foldAtomic (sid now : Nat) (m : List (String × Nat)) :
    ∀ (cs : List CountRow) (c : String), (m.map Prod.fst).Nodup →
      findCount (m.foldl (fun cs kv => upsertCountAtomic cs sid kv.1 kv.2 now) cs) sid c =
        (if c ∈ m.map Prod.fst
         then some ((findCount cs sid c).getD 0 + lookupD m c)
         else findCount cs sid c) := by
  induction m with
  | nil =>
      intro cs c _
      simp [lookupD]
  | cons kv rest ih =>
      intro cs c hnd
      obtain ⟨k, v⟩ := kv
      simp only [List.map_cons, List.nodup_cons] at hnd
      obtain ⟨hk, hnd'⟩ := hnd
      simp only [List.foldl_cons]
      rw [ih _ c hnd']
      by_cases hc : c = k
      · subst hc
        rw [if_neg (by simpa using hk), if_pos (by simp)]
        rw [findCount_upsertAtomic_self]
        simp [lookupD]
      · rw [findCount_upsertAtomic_other _ _ _ _ _ _ hc]
        by_cases hmem : c ∈ rest.map Prod.fst
        · rw [if_pos hmem, if_pos (by simp [hmem])]
          simp [lookupD, Ne.symm hc]
        · rw [if_neg hmem, if_neg (by simp [hmem, hc])]

theorem countsProj_upsertRW (cs : List CountRow) (sid : Nat) (c : String) (v now : Nat) :
    countsProj (upsertCountRW cs sid c v now) = pupsert (countsProj cs) sid c v := by
  induction cs with
  | nil => simp [upsertCountRW, countsProj, pupsert]
  | cons r rest ih =>
      by_cases h : r.session_id = sid ∧ r.class_name = c
      · simp [upsertCountRW, h, countsProj, pupsert, h.1, h.2]
      · have hp : ¬ ((r.session_id, r.class_name, r.count).1 = sid
            ∧ (r.session_id, r.class_name, r.count).2.1 = c) := by simpa using h
        simp [upsertCountRW, h, countsProj, pupsert, hp]
        simpa [countsProj] using ih

theorem countsProj_upsertAtomic (cs : List CountRow) (sid : Nat) (c : String) (v now : Nat) :
    countsProj (upsertCountAtomic cs sid c v now) = pupsert (countsProj cs) sid c v := by
  induction cs with
  | nil => simp [upsertCountAtomic, countsProj, pupsert]
  | cons r rest ih =>
      by_cases h : r.session_id = sid ∧ r.class_name = c
      · simp [upsertCountAtomic, h, countsProj, pupsert, h.1, h.2]
      · have hp : ¬ ((r.session_id, r.class_name, r.count).1 = sid
            ∧ (r.session_id, r.class_name, r.count).2.1 = c) := by simpa using h
        simp [upsertCountAtomic, h, countsProj, pupsert, hp]
        simpa [countsProj] using ih

theorem countsProj_foldRW (sid now : Nat) (m : List (String × Nat)) :
    ∀ cs : List CountRow,
      countsProj (m.foldl (fun cs kv => upsertCountRW cs sid kv.1 kv.2 now) cs) =
        m.foldl (fun l kv => pupsert l sid kv.1 kv.2) (countsProj cs) := by
  induction m with
  | nil =>
      intro cs
      rfl
  | cons kv rest ih =>
      intro cs
      simp only [List.foldl_cons]
      rw [ih, countsProj_upsertRW]

theorem countsProj_foldAtomic (sid now : Nat) (m : List (String × Nat)) :
    ∀ cs : List CountRow,
      countsProj (m.foldl (fun cs kv => upsertCountAtomic cs sid kv.1 kv.2 now) cs) =
        m.foldl (fun l kv => pupsert l sid kv.1 kv.2) (countsProj cs) := by
  induction m with
  | nil =>
      intro cs
      rfl
  | cons kv rest ih =>
      intro cs
      simp only [List.foldl_cons]
      rw [ih, countsProj_upsertAtomic]

theorem countsProj_fold_eq (sid now : Nat) (m : List (String × Nat)) (cs : List CountRow) :
    countsProj (m.foldl (fun cs kv => upsertCountRW cs sid kv.1 kv.2 now) cs) =
      countsProj (m.foldl (fun cs kv => upsertCountAtomic cs sid kv.1 kv.2 now) cs) := by
  rw [countsProj_foldRW, countsProj_foldAtomic]

theorem oneSession_mapped (l : List SessionRow) (dets : List DetectionRow)
    (cnts : List CountRow) (imgs : List ImageRow)
    (f : SessionRow → SessionRow) (hid : ∀ r, (f r).id = r.id)
    (sid : Nat) (s : SessionRow)
    (h : l.filter (fun r => r.id = sid) = [s]) :
    oneSession ⟨l.map f, dets, cnts, imgs⟩ sid = some (f s) := by
  have hfil : (l.map f).filter (fun r => r.id = sid) = [f s] := by
    rw [filter_id_map l f hid sid, h]
    rfl
  rw [oneSession, hfil]

/-- C4: `save_counts` is additive, not idempotent, under both backend
strategies: a class already present in the counts table has its count
incremented by the supplied value, an absent class gets a new row with
that value, classes outside the supplied map are untouched; the
resulting `(session_id, class_name, count)` table contents are identical
for the read-then-write and the atomic-upsert strategy; and calling
`save_counts(sid, {"cat": 2})` twice in succession makes
`get_counts(sid)` return `{"cat": 4}` under either backend. -/
theorem C4_save_counts_additive (db : DB) (sid : Nat) (s : SessionRow)
    (hs : db.sessions.filter (fun r => r.id = sid) = [s])
    (m : List (String × Nat)) (now : Nat)
    (hnd : (m.map Prod.fst).Nodup) :
    (∀ c, c ∈ m.map Prod.fst →
      (save_counts_mysql db sid m now).map (fun d => findCount d.counts sid c) =
        some (some ((findCount db.counts sid c).getD 0 + lookupD m c)))
    ∧ (∀ c, c ∉ m.map Prod.fst →
      (save_counts_mysql db sid m now).map (fun d => findCount d.counts sid c) =
        some (findCount db.counts sid c))
    ∧ (∀ c, c ∈ m.map Prod.fst →
      (save_counts_relational db sid m now).map (fun d => findCount d.counts sid c) =
        some (some ((findCount db.counts sid c).getD 0 + lookupD m c)))
    ∧ (∀ c, c ∉ m.map Prod.fst →
      (save_counts_relational db sid m now).map (fun d => findCount d.counts sid c) =
        some (findCount db.counts sid c))
    ∧ (save_counts_mysql db sid m now).map (fun d => countsProj d.counts) =
        (save_counts_relational db sid m now).map (fun d => countsProj d.counts)
    ∧ ((save_counts_mysql exDB 1 [("cat", 2)] 5).bind
         (fun d1 => save_counts_mysql d1 1 [("cat", 2)] 6)).map
        (fun d2 => get_counts d2 1) = some [("cat", 4)]
    ∧ ((save_counts_relational exDB 1 [("cat", 2)] 5).bind
         (fun d1 => save_counts_relational d1 1 [("cat", 2)] 6)).map
        (fun d2 => get_counts d2 1) = some [("cat", 4)] := by
  have hone := oneSession_eq db sid s hs
  have hM : save_counts_mysql db sid m now = some
      ⟨db.sessions.map (setTotal sid (sumValues m) now),
       db.detections,
       m.foldl (fun cs kv => upsertCountRW cs sid kv.1 kv.2 now) db.counts,
       db.images⟩ := by
    rw [save_counts_mysql, hone]
  have hR : save_counts_relational db sid m now = some
      ⟨db.sessions.map (setTotalOnly sid (sumValues m)),
       db.detections,
       m.foldl (fun cs kv => upsertCountAtomic cs sid kv.1 kv.2 now) db.counts,
       db.images⟩ := by
    rw [save_counts_relational, hone]
  refine ⟨?_, ?_, ?_, ?_, ?_, by decide, by decide⟩
  · intro c hc
    simp only [hM, Option.map_some']
    rw [findCount_foldRW sid now m db.counts c hnd, if_pos hc]
  · intro c hc
    simp only [hM, Option.map_some']
    rw [findCount_foldRW sid now m db.counts c hnd, if_neg hc]
  · intro c hc
    simp only [hR, Option.map_some']
    rw [findCount_foldAtomic sid now m db.counts c hnd, if_pos hc]
  · intro c hc
    simp only [hR, Option.map_some']
    rw [findCount_foldAtomic sid now m db.counts c hnd, if_neg hc]
  · simp only [hM, hR, Option.map_some']
    exact congrArg some (countsProj_fold_eq sid now m db.counts)

/-- Witness for C4 at the concrete example database and `{"cat": 2}`. -/
theorem C4_save_counts_additive_witness :
    (exDB.sessions.filter (fun r => r.id = 1) = [exSession]
      ∧ ([("cat", 2)].map (Prod.fst (β := Nat))).Nodup)
    ∧ ((∀ c, c ∈ [("cat", 2)].map (Prod.fst (β := Nat)) →
         (save_counts_mysql exDB 1 [("cat", 2)] 5).map (fun d => findCount d.counts 1 c) =
           some (some ((findCount exDB.counts 1 c).getD 0 + lookupD [("cat", 2)] c)))
       ∧ (∀ c, c ∉ [("cat", 2)].map (Prod.fst (β := Nat)) →
         (save_counts_mysql exDB 1 [("cat", 2)] 5).map (fun d => findCount d.counts 1 c) =
           some (findCount exDB.counts 1 c))
       ∧ (∀ c, c ∈ [("cat", 2)].map (Prod.fst (β := Nat)) →
         (save_counts_relational exDB 1 [("cat", 2)] 5).map (fun d => findCount d.counts 1 c) =
           some (some ((findCount exDB.counts 1 c).getD 0 + lookupD [("cat", 2)] c)))
       ∧ (∀ c, c ∉ [("cat", 2)].map (Prod.fst (β := Nat)) →
         (save_counts_relational exDB 1 [("cat", 2)] 5).map (fun d => findCount d.counts 1 c) =
           some (findCount exDB.counts 1 c))
       ∧ (save_counts_mysql exDB 1 [("cat", 2)] 5).map (fun d => countsProj d.counts) =
           (save_counts_relational exDB 1 [("cat", 2)] 5).map (fun d => countsProj d.counts)
       ∧ ((save_counts_mysql exDB 1 [("cat", 2)] 5).bind
            (fun d1 => save_counts_mysql d1 1 [("cat", 2)] 6)).map
           (fun d2 => get_counts d2 1) = some [("cat", 4)]
       ∧ ((save_counts_relational exDB 1 [("cat", 2)] 5).bind
            (fun d1 => save_counts_relational d1 1 [("cat", 2)] 6)).map
           (fun d2 => get_counts d2 1) = some [("cat", 4)]) :=
  ⟨⟨by decide, by decide⟩,
   C4_save_counts_additive exDB 1 exSession (by decide) [("cat", 2)] 5 (by decide)⟩

/-- C7: `save_counts` sets the session's `total_objects_detected` to the
sum of the counts map supplied in that call (not a cumulative total),
and `get_total_count` reads this cached field: after two saves of
`{"cat": 2}`, `get_total_count` returns `2` while the count rows sum to
`4`. -/
theorem C7_session_total_cached (db : DB) (sid : Nat) (s : SessionRow)
    (hs : db.sessions.filter (fun r => r.id = sid) = [s])
    (m : List (String × Nat)) (now : Nat) :
    (save_counts_mysql db sid m now).map (fun d => get_total_count d sid) =
      some (some (sumValues m))
    ∧ ((save_counts_mysql exDB 1 [("cat", 2)] 5).bind
         (fun d1 => save_counts_mysql d1 1 [("cat", 2)] 6)).map
        (fun d2 => (get_total_count d2 1, sumValues (get_counts d2 1))) =
      some (some 2, 4) := by
  have hone := oneSession_eq db sid s hs
  have hmem : s ∈ db.sessions.filter (fun r => r.id = sid) := by
    rw [hs]
    exact List.mem_singleton_self s
  have hsid : s.id = sid := by
    have := (List.mem_filter.mp hmem).2
    simpa using this
  have hM : save_counts_mysql db sid m now = some
      ⟨db.sessions.map (setTotal sid (sumValues m) now),
       db.detections,
       m.foldl (fun cs kv => upsertCountRW cs sid kv.1 kv.2 now) db.counts,
       db.images⟩ := by
    rw [save_counts_mysql, hone]
  constructor
  · simp only [hM, Option.map_some']
    rw [get_total_count, oneSession_mapped db.sessions db.detections
      (m.foldl (fun cs kv => upsertCountRW cs sid kv.1 kv.2 now) db.counts) db.images
      (setTotal sid (sumValues m) now) (setTotal_id _ _ _) sid s hs]
    simp [setTotal, hsid]
  · decide

/-- Witness for C7 at the concrete example database and `{"cat": 2}`. -/
theorem C7_session_total_cached_witness :
    (exDB.sessions.filter (fun r => r.id = 1) = [exSession])
    ∧ ((save_counts_mysql exDB 1 [("cat", 2)] 5).map (fun d => get_total_count d 1) =
         some (some (sumValues [("cat", 2)]))
       ∧ ((save_counts_mysql exDB 1 [("cat", 2)] 5).bind
            (fun d1 => save_counts_mysql d1 1 [("cat", 2)] 6)).map
           (fun d2 => (get_total_count d2 1, sumValues (get_counts d2 1))) =
         some (some 2, 4)) :=
  ⟨by decide,
   C7_session_total_cached exDB 1 exSession (by decide) [("cat", 2)] 5⟩

end ObjectCounter
